import Mathlib

/-!
# Aviation weather briefing: decoding and severity-classification engine

Shallow embedding of the report-decoding and classification core of the
aviation-weather-briefing repository, together with theorems settling the
frozen claims about it.

The embedding mirrors the Python source:
* `AviationWeatherParser` — `new_arnav/aviation_nlp_parser.py`
  (the METAR/TAF/PIREP string decoders and simplified-phrase generators);
* `WeatherService` — `aviation-weather-briefing/weather_service.py`
  (the JSON-field normalisation, in particular visibility and ceiling);
* `WeatherAnalyzer` — `aviation-weather-briefing/weather_analyzer.py`
  (the severity scoring, category derivation, and multi-source combiner);
* `AppMain` — `app.py` (the PIREP dataclass, `parse_raw`, `make_summary`,
  `relative_time`).

Conventions used throughout:
* Python `re.match` is a prefix match, `re.search` is a leftmost match at any
  position; both are embedded by hand-written character-level matchers with the
  same greedy/backtracking behaviour as the source regexes.
* Python numbers: integer fields are `Int`, float fields are `ℚ` (every
  comparison and arithmetic operation the source does on them is exact).
* Python `None` / missing dict keys are `Option.none`; dict truthiness of a
  string is the `≠ ""` test, of a list the `≠ []` test, of an int the `≠ 0`
  test, matching each use site.
* Wall-clock time is passed explicitly (minutes for the PIREP age computation,
  epoch seconds for the relative-time phrase), at minute granularity.
-/

/-! ## String and character utilities -/

/-- Characters matched by the regex class `\s` (ASCII inputs). -/
def isPySpace (c : Char) : Bool :=
  c = ' ' || c = '\t' || c = '\n' || c = '\r' || c = Char.ofNat 11 || c = Char.ofNat 12

/-- Python character slicing helpers (by character, structural recursion so
that every decoder evaluates inside the kernel). -/
def strTake (s : String) (n : Nat) : String := String.mk (s.data.take n)

/-- Drop the first `n` characters. -/
def strDrop (s : String) (n : Nat) : String := String.mk (s.data.drop n)

/-- Drop the last `n` characters (`s[:-n]`). -/
def strDropRight (s : String) (n : Nat) : String :=
  String.mk (s.data.take (s.data.length - n))

/-- Python `str.startswith`. -/
def startsWithStr (s pat : String) : Bool := pat.data.isPrefixOf s.data

/-- Python `str.endswith`. -/
def endsWithStr (s pat : String) : Bool :=
  pat.data.reverse.isPrefixOf s.data.reverse

/-- Python `str.strip()`. -/
def pyStrip (s : String) : String :=
  String.mk ((s.data.dropWhile isPySpace).reverse.dropWhile isPySpace).reverse

/-- Leftmost non-overlapping replacement on character lists, with fuel (each
step consumes at least one character, so `l.length` is enough fuel; the
patterns used are never empty). -/
def replaceFuel (pat rep : List Char) : Nat → List Char → List Char
  | 0, l => l
  | _, [] => []
  | fuel + 1, l@(c :: rest) =>
    if pat ≠ [] && pat.isPrefixOf l then
      rep ++ replaceFuel pat rep fuel (l.drop pat.length)
    else c :: replaceFuel pat rep fuel rest

/-- Python `str.replace` (all occurrences, left to right). -/
def replaceStr (s pat rep : String) : String :=
  String.mk (replaceFuel pat.data rep.data s.data.length s.data)

/-- Accumulator loop for `splitWs`. -/
def splitWsAux : List Char → List Char → List String
  | [], cur => if cur.isEmpty then [] else [String.mk cur.reverse]
  | c :: rest, cur =>
    if isPySpace c then
      if cur.isEmpty then splitWsAux rest []
      else String.mk cur.reverse :: splitWsAux rest []
    else splitWsAux rest (c :: cur)

/-- Accumulator loop for `splitOnChar` (keeps empty pieces, like Python
`str.split('/')`). -/
def splitOnCharAux (sep : Char) : List Char → List Char → List String
  | [], cur => [String.mk cur.reverse]
  | c :: rest, cur =>
    if c = sep then String.mk cur.reverse :: splitOnCharAux sep rest []
    else splitOnCharAux sep rest (c :: cur)

/-- Python `str.split(sep)` for a one-character separator. -/
def splitOnChar (sep : Char) (s : String) : List String :=
  splitOnCharAux sep s.data []

/-- `sep.join(parts)`. -/
def joinSep (sep : String) : List String → String
  | [] => ""
  | [x] => x
  | x :: xs => x ++ sep ++ joinSep sep xs

/-- Python `str.split()` with no argument: split on runs of whitespace,
dropping empty pieces. -/
def splitWs (s : String) : List String := splitWsAux s.data []

/-- Python `str.upper()` on ASCII text. -/
def toUpperStr (s : String) : String := String.mk (s.data.map Char.toUpper)

/-- Python `str.lower()` on ASCII text. -/
def toLowerStr (s : String) : String := String.mk (s.data.map Char.toLower)

/-- `sub` occurs as a contiguous run inside `l`. -/
def listInfix (sub : List Char) : List Char → Bool
  | [] => sub.isEmpty
  | l@(_ :: rest) => sub.isPrefixOf l || listInfix sub rest

/-- Python `sub in s` (substring containment). -/
def strContains (s sub : String) : Bool := listInfix sub.data s.data


/-- Take exactly `n` characters satisfying `p` from the front. -/
def takeCount (n : Nat) (p : Char → Bool) (l : List Char) :
    Option (List Char × List Char) :=
  match n, l with
  | 0, l => some ([], l)
  | _ + 1, [] => none
  | n + 1, c :: rest =>
    if p c then
      match takeCount n p rest with
      | some (t, r) => some (c :: t, r)
      | none => none
    else none

/-- Take one or more characters satisfying `p` from the front (regex `X+`,
greedy). -/
def takeWhile1 (p : Char → Bool) (l : List Char) : Option (List Char × List Char) :=
  let t := l.takeWhile p
  if t.isEmpty then none else some (t, l.drop t.length)

/-- Numeric value of a digit string (Python `int` on a digit string). -/
def digitsToInt (l : List Char) : Int :=
  l.foldl (fun acc c => acc * 10 + (c.toNat - '0'.toNat)) 0

/-- `List.isPrefixOf` specialised to a string pattern. -/
def strPrefix (pat : String) (l : List Char) : Bool := pat.data.isPrefixOf l

/-- Leftmost-match regex search: try the anchored matcher `f` at every
position of the string, leftmost first (Python `re.search`). -/
def searchPos (f : List Char → Option α) : List Char → Option α
  | [] => f []
  | c :: rest =>
    match f (c :: rest) with
    | some a => some a
    | none => searchPos f rest

/-- Python `round` (round half to even) on an exact rational (written with
`mkRat` so that it evaluates by kernel reduction; `r` is the fractional part
`q - ⌊q⌋`). -/
def roundHalfEven (q : ℚ) : Int :=
  let f := ⌊q⌋
  let r := mkRat (q.num - f * q.den) q.den
  if r < mkRat 1 2 then f
  else if mkRat 1 2 < r then f + 1
  else if f % 2 = 0 then f else f + 1

/-- Decimal digits of `n/d` after the point, with fuel (used only to print
Python floats; all values produced by the source terminate well within the
fuel). -/
def fracDigits : Nat → Nat → Nat → List Char
  | 0, _, _ => []
  | _, _, 0 => []
  | fuel + 1, r, d =>
    if r = 0 then []
    else
      let r10 := r * 10
      Char.ofNat ('0'.toNat + r10 / d) :: fracDigits fuel (r10 % d) d

/-- Python `repr`/f-string rendering of a float holding the exact value `q`
(e.g. `3.0`, `0.5`).  Faithful on the decimal-representable values the source
produces. -/
def pyFloatRepr (q : ℚ) : String :=
  let sign := if q < 0 then "-" else ""
  let n := q.num.natAbs
  let d := q.den
  let ip := n / d
  let fp := fracDigits 20 (n % d) d
  sign ++ toString ip ++ "." ++ (if fp.isEmpty then "0" else String.mk fp)

/-- Python `repr` of a list of strings, e.g. `['a', 'b']` (single quotes;
faithful for quote-free content, which is all the source ever prints). -/
def pyStrListRepr (l : List String) : String :=
  "[" ++ joinSep ", " (l.map (fun s => "'" ++ s ++ "'")) ++ "]"

/-! ## `AviationWeatherParser` (new_arnav/aviation_nlp_parser.py)

Each definition embeds the method of the same name of the
`AviationWeatherParser` class; the constant tables are the dictionaries built
in `__init__`, kept in insertion order (Python dicts iterate in insertion
order, which several loops rely on). -/

namespace AviationWeatherParser

/-- `self.weather_phenomena` — phenomenon code → description. -/
def weather_phenomena : List (String × String) :=
  [("RA", "rain"), ("DZ", "drizzle"), ("SN", "snow"), ("SG", "snow grains"),
   ("IC", "ice crystals"), ("PL", "ice pellets"), ("GR", "hail"), ("GS", "small hail"),
   ("UP", "unknown precipitation"),
   ("FG", "fog"), ("BR", "mist"), ("HZ", "haze"), ("DU", "dust"), ("SA", "sand"),
   ("FU", "smoke"), ("VA", "volcanic ash"), ("PY", "spray"),
   ("SQ", "squalls"), ("FC", "funnel cloud"), ("SS", "sandstorm"), ("DS", "duststorm"),
   ("PO", "dust whirls"), ("TS", "thunderstorm")]

/-- `self.descriptors` — descriptor prefix → description. -/
def descriptors : List (String × String) :=
  [("MI", "shallow"), ("PR", "partial"), ("BC", "patches"), ("DR", "drifting"),
   ("BL", "blowing"), ("SH", "showers"), ("FZ", "freezing"), ("RE", "recent")]

/-- `self.cloud_types` — cloud cover code → description. -/
def cloud_types : List (String × String) :=
  [("FEW", "few clouds"), ("SCT", "scattered clouds"), ("BKN", "broken clouds"),
   ("OVC", "overcast"), ("CLR", "clear"), ("SKC", "sky clear"),
   ("NSC", "no significant cloud"), ("NCD", "no cloud detected"),
   ("VV", "vertical visibility")]

/-- `self.pirep_severity` — severity code → (level, description, color). -/
def pirep_severity : List (String × Int × String × String) :=
  [("NEG", 0, "negative", "success"), ("TRACE", 1, "trace", "info"),
   ("LGT", 2, "light", "warning"), ("MOD", 3, "moderate", "warning"),
   ("SEV", 4, "severe", "danger"), ("EXTRM", 5, "extreme", "danger")]

/-- `self.turbulence_types`. -/
def turbulence_types : List (String × String) :=
  [("CAT", "clear air turbulence"), ("CHOP", "choppy conditions"),
   ("LLWS", "low level wind shear")]

/-- `self.icing_types`. -/
def icing_types : List (String × String) :=
  [("RIME", "rime ice"), ("CLR", "clear ice"), ("MXD", "mixed ice")]

/-- Value stored in the `direction` entry of a wind dict.  The source always
stores an `int` (constructor `deg`); `txt` represents the string alternative
(`"calm"` / `"variable direction"`) that the spec expects the field to be able
to hold, so that the two are comparable in theorems. -/
inductive WDir where
  | deg (n : Int)
  | txt (s : String)
deriving DecidableEq

/-- The wind dict built by `_parse_wind` / the `wind` entry of the METAR
components.  An absent key is `none`; the initial `{}` is the record with all
fields `none`.  The `variable` key (set by the `DDDVDDD` token handler) is
named `variableDir` because `variable` is a Lean keyword. -/
structure WindInfo where
  direction : Option WDir := none
  speed : Option Int := none
  gust : Option Int := none
  description : Option String := none
  variableDir : Option String := none
deriving DecidableEq

/-- Python truthiness of the wind dict (`if wind:`): nonempty. -/
def WindInfo.isEmpty (w : WindInfo) : Bool :=
  w.direction.isNone && w.speed.isNone && w.gust.isNone &&
  w.description.isNone && w.variableDir.isNone

/-- Anchored match of `KT` (regex literal). -/
def matchKT (l : List Char) : Bool := strPrefix "KT" l

/-- After the speed digits: `(G\d{2,3})?KT`, greedy (`G`+3 digits, then
`G`+2 digits, then no gust), returning the optional gust capture. -/
def windGustKT (r2 : List Char) : Option (Option Int) :=
  let noGust : Option (Option Int) := if matchKT r2 then some none else none
  match r2 with
  | 'G' :: r3 =>
    let g3 :=
      match takeCount 3 Char.isDigit r3 with
      | some (ds, r4) => if matchKT r4 then some (some (digitsToInt ds)) else none
      | none => none
    let g2 :=
      match takeCount 2 Char.isDigit r3 with
      | some (ds, r4) => if matchKT r4 then some (some (digitsToInt ds)) else none
      | none => none
    g3 <|> g2 <|> noGust
  | _ => noGust

/-- Prefix match of the wind regex
`(\d{3})(\d{2,3})(G(\d{2,3}))?KT` with its captures
(direction, speed, optional gust); greedy with backtracking like the source
regex.  Used both by the tokenizer test and by `_parse_wind`. -/
def windCore (l : List Char) : Option (Int × Int × Option Int) :=
  match takeCount 3 Char.isDigit l with
  | none => none
  | some (d, r1) =>
    let s3 :=
      match takeCount 3 Char.isDigit r1 with
      | some (sp, r2) => (windGustKT r2).map (fun g => (digitsToInt d, digitsToInt sp, g))
      | none => none
    let s2 :=
      match takeCount 2 Char.isDigit r1 with
      | some (sp, r2) => (windGustKT r2).map (fun g => (digitsToInt d, digitsToInt sp, g))
      | none => none
    s3 <|> s2

/-- `_degrees_to_compass`: `round(degrees/45) % 8` over the eight octant
names. -/
def degrees_to_compass (degrees : Int) : String :=
  let directions := ["north", "northeast", "east", "southeast", "south",
                     "southwest", "west", "northwest"]
  let index := (roundHalfEven (mkRat degrees 45)) % 8
  directions.getD index.toNat ""

/-- `_describe_wind`: wind description from a wind dict.  `wind.get('speed', 0)`,
`wind.get('direction', 0)` and the truthy `gust and gust > speed` test are
embedded literally; the `direction` entry is an `int` on every source path
(the `txt` case never arises and defaults to `0` like `dict.get`). -/
def describe_wind (w : WindInfo) : String :=
  if w.isEmpty then ""
  else if w.speed.getD 0 = 0 then "calm winds"
  else
    let direction : Int := match w.direction with
      | some (WDir.deg n) => n
      | some (WDir.txt _) => 0
      | none => 0
    let speed := w.speed.getD 0
    let compass := degrees_to_compass direction
    let base := "winds from " ++ compass ++ " at " ++ toString speed ++ " knots"
    match w.gust with
    | some g => if g ≠ 0 && g > speed then base ++ " gusting to " ++ toString g ++ " knots" else base
    | none => base

/-- `_parse_wind`: the literal `00000KT` short-circuit, then the wind regex. -/
def parse_wind (wind_str : String) : WindInfo :=
  if wind_str = "00000KT" then
    { direction := some (WDir.deg 0), speed := some 0,
      description := some "calm winds" }
  else
    match windCore wind_str.data with
    | some (d, sp, g) =>
      { direction := some (WDir.deg d), speed := some sp, gust := g,
        description := some (describe_wind
          { direction := some (WDir.deg d), speed := some sp, gust := g }) }
    | none => {}

/-- `_parse_visibility`: strip every `SM` and append `statute miles`. -/
def parse_visibility (vis_str : String) : String :=
  if strContains vis_str "SM" then
    (replaceStr vis_str "SM" "") ++ " statute miles"
  else vis_str

/-- `_is_weather_phenomenon`: strip `+`/`-`, then `V`/`C` (Python
`lstrip('VC')` strips by character set), delete every descriptor code, and
test whether any phenomenon code remains as a substring. -/
def is_weather_phenomenon (code : String) : Bool :=
  let c1 := code.data.dropWhile (fun c => c = '+' || c = '-')
  let c2 := c1.dropWhile (fun c => c = 'V' || c = 'C')
  let c3 := descriptors.foldl (fun acc p => replaceStr acc p.1 "") (String.mk c2)
  weather_phenomena.any (fun p => strContains c3 p.1)

/-- Scan of the remaining code two characters at a time, collecting known
phenomenon translations (the `while i < len(code)` loop of
`_parse_weather_phenomenon`). -/
def scanPhenoms : List Char → List String
  | c1 :: c2 :: rest =>
    match weather_phenomena.lookup (String.mk [c1, c2]) with
    | some t => t :: scanPhenoms rest
    | none => scanPhenoms (c2 :: rest)
  | _ => []

/-- One parsed weather-phenomenon token (`_parse_weather_phenomenon`'s dict).
`code` is the token after stripping intensity and descriptor prefixes, as in
the source. -/
structure Pheno where
  code : String
  intensity : String
  descriptor : String
  phenomena : List String
  description : String
deriving DecidableEq

/-- `_parse_weather_phenomenon`. -/
def parse_weather_phenomenon (code0 : String) : Pheno :=
  let (intensity, c1) :=
    if startsWithStr code0 "-" then ("light", strDrop code0 1)
    else if startsWithStr code0 "+" then ("heavy", strDrop code0 1)
    else if startsWithStr code0 "VC" then ("in vicinity", strDrop code0 2)
    else ("", code0)
  let (descriptor, c2) :=
    match descriptors.find? (fun p => startsWithStr c1 p.1) with
    | some p => (p.2, strDrop c1 p.1.length)
    | none => ("", c1)
  let phenomena := scanPhenoms c2.data
  let desc_parts :=
    (if intensity ≠ "" then [intensity] else []) ++
    (if descriptor ≠ "" then [descriptor] else []) ++ phenomena
  { code := c2, intensity := intensity, descriptor := descriptor,
    phenomena := phenomena,
    description := if desc_parts.isEmpty then c2
                   else String.intercalate " " desc_parts }

end AviationWeatherParser

namespace AviationWeatherParser

/-- One cloud layer (`_parse_cloud_layer`'s dict; the fallback dict carries
only `description`, embedded as empty `coverage` and absent `height`). -/
structure CloudLayer where
  coverage : String := ""
  height : Option Int := none
  description : String
deriving DecidableEq

/-- Cover codes of the cloud regex `(FEW|SCT|BKN|OVC|CLR|SKC|VV)\d{3}`, in
alternation order. -/
def cloudCovers : List String := ["FEW", "SCT", "BKN", "OVC", "CLR", "SKC", "VV"]

/-- Prefix match of the cloud regex, with its captures. -/
def cloudCore (l : List Char) : Option (String × Int) :=
  match cloudCovers.find? (fun p => strPrefix p l) with
  | some cov =>
    match takeCount 3 Char.isDigit (l.drop cov.length) with
    | some (ds, _) => some (cov, digitsToInt ds)
    | none => none
  | none => none

/-- `_parse_cloud_layer`. -/
def parse_cloud_layer (cloud_str : String) : CloudLayer :=
  match cloudCore cloud_str.data with
  | some (coverage, h) =>
    let height := h * 100
    { coverage := coverage, height := some height,
      description := ((cloud_types.lookup coverage).getD coverage) ++ " at " ++
                     toString height ++ " feet" }
  | none => { description := cloud_str }

/-- `_describe_clouds`: `' | '`-joined layer descriptions (every layer dict
has a `description` key, so the `if 'description' in cloud` filter keeps
all). -/
def describe_clouds (clouds : List CloudLayer) : String :=
  if clouds.isEmpty then ""
  else joinSep " | " (clouds.map (fun c => c.description))

/-- `_parse_temperature`: leading `M` becomes a minus sign (string-level). -/
def parse_temperature (temp_str : String) : String :=
  if startsWithStr temp_str "M" then "-" ++ strDrop temp_str 1 else temp_str

/-- `_parse_altimeter`: `Annnn` → `nn.nn`. -/
def parse_altimeter (alt_str : String) : String :=
  if startsWithStr alt_str "A" then
    let alt_num := strDrop alt_str 1
    strTake alt_num 2 ++ "." ++ strDrop alt_num 2
  else alt_str

/-- `_parse_time`: `ddhhmmZ` → `dd`th at `hh`:`mm`Z. -/
def parse_time (time_str : String) : String :=
  if endsWithStr time_str "Z" then
    let time_num := strDropRight time_str 1
    strTake time_num 2 ++ "th at " ++ strTake (strDrop time_num 2) 2 ++ ":" ++
      strTake (strDrop time_num 4) 2 ++ "Z"
  else time_str

/-- Prefix match of `\d{6}Z` (the observation/issue-time token test). -/
def isTimeToken (l : List Char) : Bool :=
  match takeCount 6 Char.isDigit l with
  | some (_, 'Z' :: _) => true
  | _ => false

/-- Prefix match of `\d{3}V\d{3}` (variable wind direction). -/
def isVarWindToken (l : List Char) : Bool :=
  match takeCount 3 Char.isDigit l with
  | some (_, 'V' :: r) => (takeCount 3 Char.isDigit r).isSome
  | _ => false

/-- Candidate splits for `\d{1,2}` in greedy order (2 digits then 1). -/
def d12 (l : List Char) : List (List Char × List Char) :=
  (match takeCount 2 Char.isDigit l with | some p => [p] | none => []) ++
  (match takeCount 1 Char.isDigit l with | some p => [p] | none => [])

/-- Prefix match of the visibility token regex
`\d{1,2}SM|\d{1,2}/\d{1,2}SM|\d{1,2} \d{1,2}/\d{1,2}SM` (the third
alternative can never match a whitespace-split token but is embedded for
completeness). -/
def isVisToken (l : List Char) : Bool :=
  let alt1 := (d12 l).any (fun p => strPrefix "SM" p.2)
  let frac : List Char → Bool := fun r =>
    (d12 r).any (fun p =>
      match p.2 with
      | '/' :: r2 => (d12 r2).any (fun q => strPrefix "SM" q.2)
      | _ => false)
  let alt2 := frac l
  let alt3 := (d12 l).any (fun p =>
    match p.2 with
    | ' ' :: r2 => frac r2
    | _ => false)
  alt1 || alt2 || alt3

/-- Prefix match of `M?\d{2}/M?\d{2}` (temperature/dewpoint token). -/
def isTempToken (l : List Char) : Bool :=
  let l1 := match l with | 'M' :: r => r | _ => l
  match takeCount 2 Char.isDigit l1 with
  | some (_, '/' :: r2) =>
    let l2 := match r2 with | 'M' :: r => r | _ => r2
    (takeCount 2 Char.isDigit l2).isSome
  | _ => false

/-- Prefix match of `A\d{4}` (altimeter token). -/
def isAltToken (l : List Char) : Bool :=
  match l with
  | 'A' :: r => (takeCount 4 Char.isDigit r).isSome
  | _ => false

/-- Prefix match of `(FEW|SCT|BKN|OVC|CLR|SKC|VV)\d{3}` (cloud token). -/
def isCloudToken (l : List Char) : Bool := (cloudCore l).isSome

/-- The METAR components dict (`_extract_metar_components`' accumulator);
every field starts at its Python initial value. -/
structure MetarComponents where
  station : String := ""
  time : String := ""
  wind : WindInfo := {}
  visibility : String := ""
  weather : List Pheno := []
  clouds : List CloudLayer := []
  temperature : String := ""
  dewpoint : String := ""
  altimeter : String := ""
  remarks : String := ""
deriving DecidableEq

/-- The `for i, part in enumerate(metar_parts)` loop of
`_extract_metar_components`, one `elif` arm per token shape, `RMK` copying the
rest verbatim and stopping. -/
def metarLoop : Nat → List String → MetarComponents → MetarComponents
  | _, [], c => c
  | i, part :: rest, c =>
    if i = 0 && part.length = 4 && part.data.all Char.isAlpha then
      metarLoop (i + 1) rest { c with station := part }
    else if isTimeToken part.data then
      metarLoop (i + 1) rest { c with time := parse_time part }
    else if (windCore part.data).isSome || part = "00000KT" then
      metarLoop (i + 1) rest { c with wind := parse_wind part }
    else if isVarWindToken part.data then
      metarLoop (i + 1) rest { c with wind := { c.wind with variableDir := some part } }
    else if isVisToken part.data then
      metarLoop (i + 1) rest { c with visibility := parse_visibility part }
    else if is_weather_phenomenon part then
      metarLoop (i + 1) rest { c with weather := c.weather ++ [parse_weather_phenomenon part] }
    else if isCloudToken part.data then
      metarLoop (i + 1) rest { c with clouds := c.clouds ++ [parse_cloud_layer part] }
    else if isTempToken part.data then
      let temp_parts := splitOnChar '/' part
      metarLoop (i + 1) rest
        { c with temperature := parse_temperature (temp_parts.getD 0 ""),
                 dewpoint := parse_temperature (temp_parts.getD 1 "") }
    else if isAltToken part.data then
      metarLoop (i + 1) rest { c with altimeter := parse_altimeter part }
    else if part = "RMK" then
      { c with remarks := joinSep " " rest }
    else
      metarLoop (i + 1) rest c

/-- `_extract_metar_components`. -/
def extract_metar_components (metar : String) : MetarComponents :=
  metarLoop 0 (splitWs (pyStrip metar)) {}

/-- `_generate_metar_simplified`: ordered clauses joined with `' | '`, with the
no-information fallback. -/
def generate_metar_simplified (c : MetarComponents) : String :=
  let parts : List String :=
    (if c.station ≠ "" then ["Station " ++ c.station] else []) ++
    (if c.time ≠ "" then ["observed at " ++ c.time] else []) ++
    (if !c.wind.isEmpty then
       (let wind_desc := describe_wind c.wind
        if wind_desc ≠ "" then [wind_desc] else [])
     else []) ++
    (if c.visibility ≠ "" then ["visibility " ++ c.visibility] else []) ++
    (if !c.weather.isEmpty then
       [joinSep " and " (c.weather.map (fun w => w.description))]
     else []) ++
    (if !c.clouds.isEmpty then
       (let cloud_desc := describe_clouds c.clouds
        if cloud_desc ≠ "" then [cloud_desc] else [])
     else []) ++
    (if c.temperature ≠ "" && c.dewpoint ≠ "" then
       ["temperature " ++ c.temperature ++ "°C | dewpoint " ++ c.dewpoint ++ "°C"]
     else []) ++
    (if c.altimeter ≠ "" then ["altimeter " ++ c.altimeter ++ " inHg"] else [])
  if parts ≠ [] then joinSep " | " parts
  else "No weather information available"

/-- Result of the top-level `parse_metar` (`components` is `none` for the
empty-input fallback's literal empty dict). -/
structure MetarResult where
  raw : String
  simplified : String
  components : Option MetarComponents
deriving DecidableEq

/-- `parse_metar`: empty input short-circuits to the fallback; otherwise
extract components and generate the simplified phrase (the embedded decoders
are total, so the `except` branch is unreachable). -/
def parse_metar (raw_metar : String) : MetarResult :=
  if raw_metar = "" then
    { raw := "", simplified := "No METAR data available", components := none }
  else
    let components := extract_metar_components raw_metar
    { raw := pyStrip raw_metar,
      simplified := generate_metar_simplified components,
      components := some components }

end AviationWeatherParser

namespace AviationWeatherParser

/-- `_parse_valid_period`: `hhhh/hhhh` → from `hh`:`hh`Z to `hh`:`hh`Z. -/
def parse_valid_period (period_str : String) : String :=
  if strContains period_str "/" then
    let pieces := splitOnChar '/' period_str
    let start := pieces.getD 0 ""
    let e := pieces.getD 1 ""
    "from " ++ strTake start 2 ++ ":" ++ strDrop start 2 ++ "Z to " ++
      strTake e 2 ++ ":" ++ strDrop e 2 ++ "Z"
  else period_str

/-- `_parse_time_period`: `hhmm` → `hh:mm`Z. -/
def parse_time_period (time_str : String) : String :=
  if time_str.length = 4 then
    strTake time_str 2 ++ ":" ++ strDrop time_str 2 ++ "Z"
  else time_str

/-- Prefix match of `\d{4}/\d{4}` (TAF valid-period token). -/
def isPeriodToken (l : List Char) : Bool :=
  match takeCount 4 Char.isDigit l with
  | some (_, '/' :: r) => (takeCount 4 Char.isDigit r).isSome
  | _ => false

/-- Prefix match of `(FM|BECMG|TEMPO)\d{4}` (forecast-group leader). -/
def isGroupLeader (l : List Char) : Bool :=
  (["FM", "BECMG", "TEMPO"].any (fun p =>
    strPrefix p l && (takeCount 4 Char.isDigit (l.drop p.length)).isSome))

/-- `_split_forecast_groups`: a new group starts at each group leader or bare
period token. -/
def split_forecast_groups (parts : List String) : List (List String) :=
  let step := fun (acc : List (List String) × List String) (part : String) =>
    let (groups, current) := acc
    if isGroupLeader part.data || isPeriodToken part.data then
      (groups ++ (if current ≠ [] then [current] else []), [part])
    else (groups, current ++ [part])
  let (groups, current) := parts.foldl step ([], [])
  groups ++ (if current ≠ [] then [current] else [])

/-- One forecast group (`_parse_forecast_group`'s dict; the `conditions`
sub-dict keys are optional fields). -/
structure TafForecast where
  period : String := ""
  wind : Option String := none
  visibility : Option String := none
  weather : Option String := none
  clouds : Option String := none
  summary : String := ""
deriving DecidableEq

/-- Prefix match of `\d+SM` (forecast visibility form). -/
def isFcstVisSM (l : List Char) : Bool :=
  match takeWhile1 Char.isDigit l with
  | some (_, r) => strPrefix "SM" r
  | none => false

/-- Prefix match of `\d{4}` (forecast bare visibility form). -/
def isFourDigits (l : List Char) : Bool := (takeCount 4 Char.isDigit l).isSome

/-- Cloud covers of the forecast cloud regex `(FEW|SCT|BKN|OVC|CLR|SKC)\d{3}`
(no `VV`, unlike the METAR one). -/
def isFcstCloudToken (l : List Char) : Bool :=
  ["FEW", "SCT", "BKN", "OVC", "CLR", "SKC"].any (fun p =>
    strPrefix p l && (takeCount 3 Char.isDigit (l.drop p.length)).isSome)

/-- The condition loop of `_parse_forecast_group`, accumulating both the
`conditions` dict entries (last write wins) and the ordered list used for the
summary. -/
def fcstCondLoop : List String → TafForecast → List String → TafForecast × List String
  | [], f, conds => (f, conds)
  | part :: rest, f, conds =>
    if (windCore part.data).isSome || part = "00000KT" then
      let wind_info := parse_wind part
      match wind_info.description with
      | some d =>
        if d ≠ "" then
          fcstCondLoop rest { f with wind := some d } (conds ++ [d])
        else fcstCondLoop rest f conds
      | none => fcstCondLoop rest f conds
    else if isFcstVisSM part.data || isFourDigits part.data then
      let vis_desc := parse_visibility part
      fcstCondLoop rest { f with visibility := some vis_desc } (conds ++ [vis_desc])
    else if is_weather_phenomenon part then
      let w := parse_weather_phenomenon part
      fcstCondLoop rest { f with weather := some w.description } (conds ++ [w.description])
    else if isFcstCloudToken part.data then
      let c := parse_cloud_layer part
      fcstCondLoop rest { f with clouds := some c.description } (conds ++ [c.description])
    else fcstCondLoop rest f conds

/-- `_parse_forecast_group` (`none` for the empty group, which the caller's
`if forecast:` test drops; `_split_forecast_groups` never produces one). -/
def parse_forecast_group (group : List String) : Option TafForecast :=
  match group with
  | [] => none
  | first_part :: groupRest =>
    let period :=
      if startsWithStr first_part "FM" then
        "From " ++ parse_time_period (strDrop first_part 2)
      else if startsWithStr first_part "BECMG" then
        "Becoming " ++ parse_time_period (strDrop first_part 5)
      else if startsWithStr first_part "TEMPO" then
        "Temporarily " ++ parse_time_period (strDrop first_part 5)
      else if strContains first_part "/" then
        "Period " ++ parse_valid_period first_part
      else "Initial conditions"
    let body := if groupRest.length > 0 then groupRest else group
    let (f, conds) := fcstCondLoop body { period := period } []
    let summary :=
      if conds ≠ [] then period ++ ": " ++ joinSep ", " conds
      else period
    some { f with summary := summary }

/-- `_identify_significant_changes`. -/
def identify_significant_changes (forecasts : List TafForecast) : List String :=
  forecasts.foldl (fun acc f =>
    let acc1 :=
      match f.weather with
      | some w =>
        if ["thunderstorm", "heavy", "freezing", "snow"].any
            (fun t => strContains (toLowerStr w) t) then
          acc ++ [f.period ++ ": " ++ w]
        else acc
      | none => acc
    let acc2 :=
      match f.visibility with
      | some v =>
        if ["1SM", "2SM", "3SM"].any (fun t => strContains v t) then
          acc1 ++ [f.period ++ ": low visibility"]
        else acc1
      | none => acc1
    match f.wind with
    | some w =>
      if strContains (toLowerStr w) "gust" ||
         ["25", "30", "35", "40"].any (fun t => strContains w t) then
        acc2 ++ [f.period ++ ": strong winds"]
      else acc2
    | none => acc2) []

/-- The TAF components dict (`_extract_taf_components`' accumulator).  The
`type` key is named `ttype` (`type` clashes with Lean syntax). -/
structure TafComponents where
  ttype : String := "TAF"
  station : String := ""
  issue_time : String := ""
  valid_period : String := ""
  forecasts : List TafForecast := []
  significant_changes : List String := []
deriving DecidableEq

/-- The header `while` loop of `_extract_taf_components`: consume tokens up to
and including the valid-period token (which breaks), returning the header
fields and the remaining tokens. -/
def tafHeaderLoop : List String → TafComponents → TafComponents × List String
  | [], c => (c, [])
  | part :: rest, c =>
    if part = "TAF" then tafHeaderLoop rest c
    else if part = "AMD" || part = "COR" then
      tafHeaderLoop rest { c with ttype := "TAF " ++ part }
    else if part.length = 4 && part.data.all Char.isAlpha then
      tafHeaderLoop rest { c with station := part }
    else if isTimeToken part.data then
      tafHeaderLoop rest { c with issue_time := parse_time part }
    else if isPeriodToken part.data then
      ({ c with valid_period := parse_valid_period part }, rest)
    else tafHeaderLoop rest c

/-- `_extract_taf_components` (the `re.sub(r'\s+', ' ', ...)` normalisation is
absorbed by whitespace splitting). -/
def extract_taf_components (taf : String) : TafComponents :=
  let taf_parts := splitWs (pyStrip taf)
  let (header, remaining) := tafHeaderLoop taf_parts {}
  let forecasts := (split_forecast_groups remaining).filterMap parse_forecast_group
  { header with
    forecasts := forecasts
    significant_changes := identify_significant_changes forecasts }

/-- `_generate_taf_simplified` (every forecast dict carries a `summary` key,
so the `if 'summary' in forecast` branch is always the one taken). -/
def generate_taf_simplified (c : TafComponents) : String :=
  let parts : List String :=
    (if c.station ≠ "" then ["Terminal forecast for " ++ c.station] else []) ++
    (if c.issue_time ≠ "" then ["issued " ++ c.issue_time] else []) ++
    (if c.valid_period ≠ "" then ["valid " ++ c.valid_period] else []) ++
    (if !c.forecasts.isEmpty then
       (let summaries := c.forecasts.map (fun f => f.summary)
        if summaries ≠ [] then summaries
        else ["detailed forecast conditions available"])
     else []) ++
    (if c.significant_changes ≠ [] then
       ["significant changes: " ++ pyStrListRepr c.significant_changes]
     else [])
  if parts ≠ [] then joinSep " | " parts
  else "No forecast information available"

/-- Result of the top-level `parse_taf`. -/
structure TafResult where
  raw : String
  simplified : String
  components : Option TafComponents
deriving DecidableEq

/-- `parse_taf`. -/
def parse_taf (raw_taf : String) : TafResult :=
  if raw_taf = "" then
    { raw := "", simplified := "No TAF data available", components := none }
  else
    let components := extract_taf_components raw_taf
    { raw := pyStrip raw_taf,
      simplified := generate_taf_simplified components,
      components := some components }

end AviationWeatherParser

namespace AviationWeatherParser

/-- One entry of the `turbulence`/`icing` lists
(`_parse_pirep_turbulence` / `_parse_pirep_icing` dicts; severity entries
carry `severity`+`level`, type entries carry `type` — named `entryType` —
and the fallback carries only `description`). -/
structure PirepEntry where
  severity : Option String := none
  level : Option Int := none
  entryType : Option String := none
  description : String
deriving DecidableEq

/-- `_parse_pirep_turbulence`: severity substrings in table order, then
turbulence types, with the raw-text fallback. -/
def parse_pirep_turbulence (turb_str : String) : List PirepEntry :=
  let sev := pirep_severity.filterMap (fun e =>
    if strContains turb_str e.1 then
      some { severity := some e.1, level := some e.2.1,
             description := e.2.2.1 ++ " turbulence" }
    else none)
  let typ := turbulence_types.filterMap (fun e =>
    if strContains turb_str e.1 then
      some { entryType := some e.1, description := e.2 }
    else none)
  let all := sev ++ typ
  if all.isEmpty then [{ description := turb_str }] else all

/-- `_parse_pirep_icing`: same shape over the icing-type table. -/
def parse_pirep_icing (ice_str : String) : List PirepEntry :=
  let sev := pirep_severity.filterMap (fun e =>
    if strContains ice_str e.1 then
      some { severity := some e.1, level := some e.2.1,
             description := e.2.2.1 ++ " icing" }
    else none)
  let typ := icing_types.filterMap (fun e =>
    if strContains ice_str e.1 then
      some { entryType := some e.1, description := e.2 }
    else none)
  let all := sev ++ typ
  if all.isEmpty then [{ description := ice_str }] else all

/-- The PIREP components dict (`_extract_pirep_components`' accumulator).
`weather`, `clouds`, `visibility`, `temperature` and `wind` are initialised
but never written by the source; `type` is named `ptype`. -/
structure PirepComponents where
  ptype : String := "PIREP"
  location : String := ""
  time : String := ""
  aircraft : String := ""
  altitude : String := ""
  turbulence : List PirepEntry := []
  icing : List PirepEntry := []
  visibility : String := ""
  weather : List Pheno := []
  clouds : List CloudLayer := []
  temperature : String := ""
  wind : WindInfo := {}
  remarks : String := ""
deriving DecidableEq

/-- Anchored matcher for `/XX\s+` followed by a `takeWhile1`-style capture:
marker literal, one or more whitespace characters, then the capture. -/
def markerWs1 (marker : String) (cap : List Char → Option (List Char × List Char))
    (l : List Char) : Option String :=
  if strPrefix marker l then
    match takeWhile1 isPySpace (l.drop marker.length) with
    | some (_, r) => (cap r).map (fun p => String.mk p.1)
    | none => none
  else none

/-- Anchored matcher for the altitude regex `/FL(\d{3})|/(\d{3,5})`
(alternation order as written; `\d{3,5}` is greedy). -/
def altMatcher (l : List Char) : Option String :=
  let alt1 :=
    if strPrefix "/FL" l then
      (takeCount 3 Char.isDigit (l.drop 3)).map (fun p => String.mk p.1)
    else none
  let alt2 :=
    match l with
    | '/' :: r =>
      let ds := r.takeWhile Char.isDigit
      if ds.length ≥ 3 then some (String.mk (ds.take 5)) else none
    | _ => none
  alt1 <|> alt2

/-- `_extract_pirep_components`: `re.search` of each slash-marker pattern over
the uppercased raw text (the `/RM` capture `(.+)` runs to the end of the line;
faithful for the newline-free reports the system handles). -/
def extract_pirep_components (pirep : String) : PirepComponents :=
  let up := (toUpperStr pirep).data
  let isOVChar : Char → Bool := fun c =>
    ('A' ≤ c && c ≤ 'Z') || Char.isDigit c || c = '-' || c = '/'
  let isTPChar : Char → Bool := fun c => ('A' ≤ c && c ≤ 'Z') || Char.isDigit c
  let location := searchPos (markerWs1 "/OV" (takeWhile1 isOVChar)) up
  let time := searchPos (markerWs1 "/TM" (takeCount 4 Char.isDigit)) up
  let aircraft := searchPos (markerWs1 "/TP" (takeWhile1 isTPChar)) up
  let altitude := searchPos altMatcher up
  let turb := searchPos (markerWs1 "/TB" (takeWhile1 (fun c => c ≠ '/'))) up
  let ice := searchPos (markerWs1 "/IC" (takeWhile1 (fun c => c ≠ '/'))) up
  let remarks := searchPos (markerWs1 "/RM" (takeWhile1 (fun c => c ≠ '\n'))) up
  { location := location.getD ""
    time := time.getD ""
    aircraft := aircraft.getD ""
    altitude := altitude.getD ""
    turbulence := match turb with
      | some t => parse_pirep_turbulence t
      | none => []
    icing := match ice with
      | some t => parse_pirep_icing t
      | none => []
    remarks := remarks.getD "" }

/-- `_generate_pirep_simplified`. -/
def generate_pirep_simplified (c : PirepComponents) : String :=
  let parts : List String :=
    (if c.location ≠ "" then ["Location " ++ c.location] else []) ++
    (if c.time ≠ "" then ["reported at " ++ c.time ++ "Z"] else []) ++
    (if c.aircraft ≠ "" then ["aircraft " ++ c.aircraft] else []) ++
    (if c.altitude ≠ "" then
       [if c.altitude.length = 3 then "at FL" ++ c.altitude
        else "at " ++ c.altitude ++ " feet"]
     else []) ++
    (if !c.turbulence.isEmpty then
       ["turbulence: " ++
        joinSep " and " (c.turbulence.map (fun t => t.description))]
     else []) ++
    (if !c.icing.isEmpty then
       ["icing: " ++
        joinSep " and " (c.icing.map (fun t => t.description))]
     else []) ++
    (if c.remarks ≠ "" then ["remarks: " ++ c.remarks] else [])
  if parts ≠ [] then joinSep " | " parts
  else "No pilot report information available"

/-- The severity dict returned by `_calculate_pirep_severity` and the
empty-input fallback. -/
structure SevInfo where
  level : Int
  description : String
  color : String
deriving DecidableEq

/-- `_calculate_pirep_severity`: maximum `level` over turbulence and icing
entries (starting at 0), then the table entry with that level (level 0 finds
`NEG`, so the initial `'none'` dict survives only if the loop finds nothing —
which cannot happen since every level in range is in the table). -/
def calculate_pirep_severity (c : PirepComponents) : SevInfo :=
  let maxOf := fun (acc : Int) (l : List PirepEntry) =>
    l.foldl (fun m e => match e.level with | some v => max m v | none => m) acc
  let max_level := maxOf (maxOf 0 c.turbulence) c.icing
  match pirep_severity.find? (fun e => e.2.1 = max_level) with
  | some e => { level := e.2.1, description := e.2.2.1, color := e.2.2.2 }
  | none => { level := 0, description := "none", color := "secondary" }

/-- `_calculate_pirep_age`, with the wall clock passed explicitly as minutes
since the epoch (the source reads `datetime.utcnow()`; the embedding is at
minute granularity).  The `HHMM` report time is placed on the current day,
moved one day back if in the future; out-of-range hour/minute raises
`ValueError` in `now.replace`, caught to return 0. -/
def calculate_pirep_age (c : PirepComponents) (nowMinutes : Int) : ℚ :=
  let time_str := c.time
  if time_str = "" || time_str.length ≠ 4 then 0
  else if !time_str.data.all Char.isDigit then 0
  else
    let report_hour := digitsToInt (time_str.data.take 2)
    let report_minute := digitsToInt (time_str.data.drop 2)
    if report_hour > 23 || report_minute > 59 then 0
    else
      let dayStart := (nowMinutes.fdiv 1440) * 1440
      let report_time := dayStart + report_hour * 60 + report_minute
      let report_time := if report_time > nowMinutes then report_time - 1440 else report_time
      mkRat (nowMinutes - report_time) 60

/-- Result of the top-level `parse_pirep`. -/
structure PirepResult where
  raw : String
  simplified : String
  components : Option PirepComponents
  severity : SevInfo
  age_hours : ℚ
deriving DecidableEq

/-- `parse_pirep`, wall clock explicit (only `age_hours` reads it). -/
def parse_pirep (raw_pirep : String) (nowMinutes : Int) : PirepResult :=
  if raw_pirep = "" then
    { raw := "", simplified := "No PIREP data available", components := none,
      severity := { level := 0, description := "none", color := "secondary" },
      age_hours := 0 }
  else
    let components := extract_pirep_components raw_pirep
    { raw := pyStrip raw_pirep,
      simplified := generate_pirep_simplified components,
      components := some components,
      severity := calculate_pirep_severity components,
      age_hours := calculate_pirep_age components nowMinutes }

end AviationWeatherParser

/-! ## `WeatherService` (aviation-weather-briefing/weather_service.py)

Only the data-normalisation parts of `_parse_metar` are modelled (the HTTP
fetching is an external collaborator): the visibility-field handling and the
ceiling derivation from the cloud layers. -/

namespace WeatherService

/-- A JSON value of the upstream `visib` field: the API returns either a
string (such as `"10+"` or `"3"`) or a number. -/
inductive VisibJson where
  | jstr (s : String)
  | jnum (q : ℚ)
deriving DecidableEq

/-- Model of Python `float(s)` on the plain decimal literals the upstream
visibility strings use (optional sign, digits, optional fraction, surrounding
whitespace); exponent and special forms are out of scope and return `none`
(the source turns any `float` failure into `None`). -/
def pyFloat (s : String) : Option ℚ :=
  let t := (s.data.dropWhile isPySpace).reverse.dropWhile isPySpace |>.reverse
  let (sign, t1) : Int × List Char :=
    match t with
    | '-' :: r => (-1, r)
    | '+' :: r => (1, r)
    | r => (1, r)
  let ip := t1.takeWhile Char.isDigit
  let r1 := t1.drop ip.length
  match r1 with
  | [] => if ip.isEmpty then none else some (mkRat (sign * digitsToInt ip) 1)
  | '.' :: r2 =>
    let fp := r2.takeWhile Char.isDigit
    if r2.length ≠ fp.length then none
    else if ip.isEmpty && fp.isEmpty then none
    else
      some (mkRat (sign * (digitsToInt ip * (10 ^ fp.length : Nat) + digitsToInt fp))
        (10 ^ fp.length))
  | _ => none

/-- The visibility normalisation at the top of `_parse_metar`: the literal
string `"10+"` becomes the float `10.0`; any other non-empty string goes
through `float(...)` (falling back to `None`); numbers and falsy values pass
through unchanged. -/
def parseVisibField : Option VisibJson → Option VisibJson
  | none => none
  | some (VisibJson.jstr s) =>
    if s = "10+" then some (VisibJson.jnum 10)
    else if s ≠ "" then
      match pyFloat s with
      | some q => some (VisibJson.jnum q)
      | none => none
    else some (VisibJson.jstr s)
  | some (VisibJson.jnum q) => some (VisibJson.jnum q)

/-- One upstream cloud-layer record (`{'cover': ..., 'base': ...}`). -/
structure WxCloud where
  cover : Option String := none
  base : Option Int := none
deriving DecidableEq

/-- The ceiling block of `_parse_metar`: if the upstream `ceiling` field is
falsy and the cloud list is non-empty, take the `base` of the **first** layer
whose cover is `BKN` or `OVC` (the loop `break`s at the first hit), keeping
the original value when no such layer exists. -/
def serviceCeiling (ceilingField : Option Int) (clouds : List WxCloud) : Option Int :=
  let falsy := ceilingField = none || ceilingField = some 0
  if falsy && clouds ≠ [] then
    match clouds.find? (fun c => c.cover = some "BKN" || c.cover = some "OVC") with
    | some c => c.base
    | none => ceilingField
  else ceilingField

end WeatherService

/-! ## `WeatherAnalyzer` (aviation-weather-briefing/weather_analyzer.py) -/

namespace WeatherAnalyzer

/-- The slice of the parsed-METAR dict that `analyze_metar` reads
(`metar_data.get(...)` of each key; a missing `flight_category` defaults to
`"UNKNOWN"` at every read site, so the field carries the defaulted value). -/
structure MetarData where
  visibility : Option ℚ := none
  ceiling : Option Int := none
  wind_speed : Option Int := none
  wind_gust : Option Int := none
  weather_conditions : String := ""
  flight_category : String := "UNKNOWN"
deriving DecidableEq

/-- Result dict of `_analyze_visibility` / `_analyze_ceiling` /
`_analyze_winds` (the `hazard` key exists only for winds). -/
structure FactorResult where
  factor : String
  score : Int
  hazard : Option String := none
  level : String
deriving DecidableEq

/-- `_analyze_visibility` (thresholds `vfr_minimums`/`mvfr_minimums`:
3.0 and 1.0 statute miles). -/
def analyze_visibility (visibility : ℚ) : FactorResult :=
  if visibility ≥ 3 then
    { factor := "Visibility: " ++ pyFloatRepr visibility ++ " SM (Good)",
      score := 0, level := "good" }
  else if visibility ≥ 1 then
    { factor := "Visibility: " ++ pyFloatRepr visibility ++ " SM (Marginal)",
      score := 2, level := "marginal" }
  else
    { factor := "Visibility: " ++ pyFloatRepr visibility ++ " SM (Poor)",
      score := 4, level := "poor" }

/-- `_analyze_ceiling` (thresholds 1000 and 500 feet). -/
def analyze_ceiling (ceiling : Int) : FactorResult :=
  if ceiling ≥ 1000 then
    { factor := "Ceiling: " ++ toString ceiling ++ " ft (Good)",
      score := 0, level := "good" }
  else if ceiling ≥ 500 then
    { factor := "Ceiling: " ++ toString ceiling ++ " ft (Marginal)",
      score := 2, level := "marginal" }
  else
    { factor := "Ceiling: " ++ toString ceiling ++ " ft (Low)",
      score := 4, level := "poor" }

/-- The `f'...{"G" + str(wind_gust) + " kt" if wind_gust else ""}...'` gust
suffix of the wind factor strings (truthy test: a gust of `0` renders
nothing). -/
def gustSuffix : Option Int → String
  | some g => if g ≠ 0 then "G" ++ toString g ++ " kt" else ""
  | none => ""

/-- `_analyze_winds`: the effective wind is the gust when truthy, else the
speed; thresholds 15/25/35 knots. -/
def analyze_winds (wind_speed : Int) (wind_gust : Option Int) : FactorResult :=
  let effective_wind :=
    match wind_gust with
    | some g => if g ≠ 0 then g else wind_speed
    | none => wind_speed
  if effective_wind < 15 then
    { factor := "Winds: " ++ toString wind_speed ++ " kt (Light)",
      score := 0, hazard := none, level := "light" }
  else if effective_wind < 25 then
    { factor := "Winds: " ++ toString wind_speed ++ " kt" ++ gustSuffix wind_gust ++ " (Moderate)",
      score := 1, hazard := some "Moderate winds - monitor crosswind components",
      level := "moderate" }
  else if effective_wind < 35 then
    { factor := "Winds: " ++ toString wind_speed ++ " kt" ++ gustSuffix wind_gust ++ " (Strong)",
      score := 3, hazard := some "Strong winds - significant crosswind risk",
      level := "strong" }
  else
    { factor := "Winds: " ++ toString wind_speed ++ " kt" ++ gustSuffix wind_gust ++ " (Severe)",
      score := 5, hazard := some "Severe winds - extreme caution required",
      level := "severe" }

/-- Result dict of `_analyze_weather_conditions`. -/
structure WxConditions where
  factors : List String
  hazards : List String
  score : Int
deriving DecidableEq

/-- `_analyze_weather_conditions`: substring tests over the uppercased
weather string, blocks in source order (precipitation, thunderstorms,
fog/mist, freezing). -/
def analyze_weather_conditions (weather_string : String) : WxConditions :=
  let w := toUpperStr weather_string
  let has := fun (sub : String) => strContains w sub
  let (f1, h1, s1) :=
    if ["RA", "SN", "GR", "GS"].any has then
      if ["+RA", "+SN", "TSRA"].any has then
        (["Heavy precipitation present"],
         ["Heavy precipitation - reduced visibility and runway conditions"], (3 : Int))
      else if ["-RA", "-SN"].any has then
        (["Light precipitation present"], [], 1)
      else
        (["Moderate precipitation present"], [], 2)
    else ([], [], 0)
  let (f2, h2, s2) :=
    if has "TS" then
      (["Thunderstorms present"],
       ["Thunderstorms - severe turbulence, wind shear, and lightning risk"], (4 : Int))
    else ([], [], 0)
  let (f3, h3, s3) :=
    if ["FG", "BR", "HZ"].any has then
      (["Reduced visibility due to fog/mist/haze"],
       ["Visibility restrictions - approach and taxi hazards"], (2 : Int))
    else ([], [], 0)
  let (f4, h4, s4) :=
    if has "FZ" then
      (["Freezing conditions present"],
       ["Icing conditions - aircraft and runway icing risk"], (3 : Int))
    else ([], [], 0)
  { factors := f1 ++ f2 ++ f3 ++ f4, hazards := h1 ++ h2 ++ h3 ++ h4,
    score := s1 + s2 + s3 + s4 }

/-- `_determine_category`: flight-category tag first, then the score
thresholds, in the source's `if`/`elif` order, defaulting to
`'SIGNIFICANT'`. -/
def determine_category (severity_score : Int) (metar_data : MetarData) : String :=
  let flight_cat := metar_data.flight_category
  if flight_cat = "VFR" ∧ severity_score ≤ 1 then "CLEAR"
  else if flight_cat = "MVFR" ∨ (flight_cat = "VFR" ∧ severity_score > 1) then "SIGNIFICANT"
  else if (flight_cat = "IFR" ∨ flight_cat = "LIFR") ∨ severity_score ≥ 4 then "SEVERE"
  else "SIGNIFICANT"

end WeatherAnalyzer

namespace WeatherAnalyzer

/-- The analysis dict built by `analyze_metar`. -/
structure Analysis where
  category : String
  flight_category : String
  summary : String
  key_factors : List String
  hazards : List String
  recommendations : List String
  severity_score : Int
deriving DecidableEq

/-- `_generate_summary`. -/
def generate_summary (category : String) (metar_data : MetarData) : String :=
  let flight_cat := metar_data.flight_category
  if category = "CLEAR" then
    "Good flying conditions. " ++ flight_cat ++ " conditions with minimal weather impact."
  else if category = "SIGNIFICANT" then
    "Marginal conditions requiring attention. " ++ flight_cat ++
    " conditions with weather factors to monitor."
  else
    "Poor conditions requiring careful consideration. Significant weather hazards present."

/-- `_generate_recommendations` (`metar_data.get('wind_speed', 0)` defaults a
missing speed to 0 in the crosswind test). -/
def generate_recommendations (category : String) (metar_data : MetarData) : List String :=
  if category = "CLEAR" then
    ["Conditions favorable for flight operations",
     "Monitor weather updates for any changes"]
  else if category = "SIGNIFICANT" then
    ["Review alternate airports and fuel requirements",
     "Monitor weather trends and updates closely",
     "Consider delaying departure if conditions are deteriorating"] ++
    (if metar_data.wind_speed.getD 0 > 15 then
       ["Calculate crosswind components for all runways"]
     else [])
  else
    ["Consider delaying flight until conditions improve",
     "If proceeding, ensure alternate airports are available",
     "Review emergency procedures and diversion options",
     "Monitor weather radar and pilot reports"]

/-- `analyze_metar`: accumulate factor scores for visibility, ceiling, winds
and present weather in source order, then derive the category, summary and
recommendations.  The embedded pipeline is total, so the `except` branch of
the source (returning an `UNKNOWN` category) is unreachable. -/
def analyze_metar (metar_data : MetarData) : Analysis :=
  let a0 : Analysis :=
    { category := "CLEAR", flight_category := metar_data.flight_category,
      summary := "", key_factors := [], hazards := [], recommendations := [],
      severity_score := 0 }
  let a1 :=
    match metar_data.visibility with
    | some v =>
      let r := analyze_visibility v
      { a0 with key_factors := a0.key_factors ++ [r.factor],
                severity_score := a0.severity_score + r.score }
    | none => a0
  let a2 :=
    match metar_data.ceiling with
    | some c =>
      let r := analyze_ceiling c
      { a1 with key_factors := a1.key_factors ++ [r.factor],
                severity_score := a1.severity_score + r.score }
    | none => a1
  let a3 :=
    match metar_data.wind_speed with
    | some ws =>
      let r := analyze_winds ws metar_data.wind_gust
      { a2 with key_factors := a2.key_factors ++ [r.factor],
                severity_score := a2.severity_score + r.score,
                hazards := a2.hazards ++ (match r.hazard with
                  | some h => [h]
                  | none => []) }
    | none => a2
  let a4 :=
    if metar_data.weather_conditions ≠ "" then
      let r := analyze_weather_conditions metar_data.weather_conditions
      { a3 with key_factors := a3.key_factors ++ r.factors,
                severity_score := a3.severity_score + r.score,
                hazards := a3.hazards ++ r.hazards }
    else a3
  let category := determine_category a4.severity_score metar_data
  { a4 with category := category,
            summary := generate_summary category metar_data,
            recommendations := generate_recommendations category metar_data }

/-- The slice of a parsed TAF dict that the combiner reads. -/
structure TafData where
  raw_text : String := ""
deriving DecidableEq

/-- The slice of a parsed PIREP dict that the combiner reads. -/
structure PirepData where
  raw_text : String := ""
deriving DecidableEq

/-- `_analyze_taf_data`: fixed factor strings keyed by substring tests over
the uppercased raw TAF text, in source order. -/
def analyze_taf_data (taf : TafData) : List String :=
  let raw := toUpperStr taf.raw_text
  let has := fun (sub : String) => strContains raw sub
  (if has "TS" then ["Thunderstorms forecast"] else []) ++
  (if has "FG" || has "BR" then ["Fog/mist forecast"] else []) ++
  (if has "RA" || has "SN" then ["Precipitation forecast"] else []) ++
  (if has "TEMPO" then ["Temporary conditions expected"] else []) ++
  (if has "PROB" then ["Probability conditions forecast"] else []) ++
  (if has "BECMG" then ["Conditions becoming different"] else []) ++
  (if ["G25", "G30", "G35"].any has then ["Strong wind gusts forecast"] else [])

/-- `_analyze_pirep_data`: fixed factor strings per PIREP, keyed by substring
tests over the uppercased raw text, in source order. -/
def analyze_pirep_data (pireps : List PirepData) : List String :=
  pireps.foldl (fun acc p =>
    let raw := toUpperStr p.raw_text
    let has := fun (sub : String) => strContains raw sub
    acc ++
    (if has "TURB" || has "ROUGH" then ["Turbulence reported by pilots"] else []) ++
    (if has "ICE" || has "ICING" then ["Icing conditions reported"] else []) ++
    (if has "SMOOTH" then ["Smooth conditions reported"] else []) ++
    (if has "CLOUD" || has "LAYER" then ["Cloud conditions reported by pilots"] else []) ++
    (if has "CHOP" then ["Light chop reported"] else []) ++
    (if has "RIDE" then ["Ride conditions reported by pilots"] else [])) []

/-- The per-airport input dict of `analyze_combined_weather_data`
(`time_appropriate_conditions` is only tested for truthiness, so it is a
`Bool`; `primary_source` defaults to `'METAR'`). -/
structure AirportData where
  metar : Option MetarData := none
  taf : Option TafData := none
  pirep : List PirepData := []
  has_time_conditions : Bool := false
  primary_source : String := "METAR"
deriving DecidableEq

/-- The combined-analysis dict (`time_aware` is the key added only in the
time-appropriate branch, `false` standing for "absent"). -/
structure CombinedAnalysis where
  category : String
  severity_score : Int
  sources_used : List String
  combined_factors : List String
  flight_category : String
  summary : String
  key_factors : List String
  hazards : List String
  recommendations : List String
  time_aware : Bool
deriving DecidableEq

/-- `analyze_combined_weather_data`, METAR block: the initial analysis dict,
overwritten (`analysis.update`) by the METAR analysis when one is present,
paired with `original_category` (read only under `if metar:`, so its value in
the no-METAR case is the unused initial `'CLEAR'`). -/
def combinedBase (airport_data : AirportData) : CombinedAnalysis × String :=
  let init : CombinedAnalysis :=
    { category := "CLEAR", severity_score := 0, sources_used := [],
      combined_factors := [], flight_category := "UNKNOWN", summary := "",
      key_factors := [], hazards := [], recommendations := [], time_aware := false }
  match airport_data.metar with
  | some m =>
    let ma := analyze_metar m
    ({ init with category := ma.category, flight_category := ma.flight_category,
                 summary := ma.summary, key_factors := ma.key_factors,
                 hazards := ma.hazards, recommendations := ma.recommendations,
                 severity_score := ma.severity_score,
                 sources_used := ["METAR"] }, ma.category)
  | none => (init, "CLEAR")

/-- `analyze_combined_weather_data`, TAF block: append the TAF factors and add
+2 for deteriorating/thunderstorm language, else +1 for generic forecast
language. -/
def combinedWithTaf (a : CombinedAnalysis) (taf : Option TafData) : CombinedAnalysis :=
  match taf with
  | some t =>
    let taf_factors := analyze_taf_data t
    let a1 := { a with combined_factors := a.combined_factors ++ taf_factors,
                       sources_used := a.sources_used ++ ["TAF"] }
    if taf_factors.any (fun f =>
         strContains (toLowerStr f) "deteriorating" ||
         strContains (toLowerStr f) "thunderstorm") then
      { a1 with severity_score := a1.severity_score + 2 }
    else if taf_factors.any (fun f => strContains (toLowerStr f) "forecast") then
      { a1 with severity_score := a1.severity_score + 1 }
    else a1
  | none => a

/-- `analyze_combined_weather_data`, PIREP block: append the PIREP factors and
add +2 for turbulence/icing language, else −1 for smooth language. -/
def combinedWithPirep (a : CombinedAnalysis) (pireps : List PirepData) : CombinedAnalysis :=
  if pireps ≠ [] then
    let pirep_factors := analyze_pirep_data pireps
    let a1 := { a with combined_factors := a.combined_factors ++ pirep_factors,
                       sources_used := a.sources_used ++ ["PIREP"] }
    if pirep_factors.any (fun f =>
         strContains (toLowerStr f) "turbulence" ||
         strContains (toLowerStr f) "icing") then
      { a1 with severity_score := a1.severity_score + 2 }
    else if pirep_factors.any (fun f => strContains (toLowerStr f) "smooth") then
      { a1 with severity_score := a1.severity_score - 1 }
    else a1
  else a

/-- `analyze_combined_weather_data`, time-appropriate block. -/
def combinedWithTime (a : CombinedAnalysis) (has_time_conditions : Bool)
    (primary_source : String) : CombinedAnalysis :=
  if has_time_conditions && primary_source = "TAF" then
    { a with combined_factors :=
               a.combined_factors ++ ["Using forecast data for planned departure time"],
             time_aware := true }
  else a

/-- `analyze_combined_weather_data`, recategorisation block: the exact
`if`/`elif` chain of the source, with the METAR arm keyed on the presence of
a METAR and its original category. -/
def combinedRecategorize (a : CombinedAnalysis) (metar : Option MetarData)
    (original_category : String) : CombinedAnalysis :=
  match metar with
  | some _ =>
    if a.severity_score ≥ 6 then { a with category := "SEVERE" }
    else if a.severity_score ≥ 3 ∨ original_category = "SIGNIFICANT" then
      { a with category := "SIGNIFICANT" }
    else if original_category = "SEVERE" then { a with category := "SEVERE" }
    else { a with category := original_category }
  | none =>
    if a.severity_score ≥ 6 then { a with category := "SEVERE" }
    else if a.severity_score ≥ 3 then { a with category := "SIGNIFICANT" }
    else { a with category := "CLEAR" }

/-- `analyze_combined_weather_data`, final summary suffix. -/
def combinedSummary (a : CombinedAnalysis) : CombinedAnalysis :=
  let sources_str :=
    if a.sources_used ≠ [] then joinSep ", " a.sources_used
    else "Limited data"
  { a with summary := a.summary ++ " (Sources: " ++ sources_str ++ ")" }

/-- `analyze_combined_weather_data`: the source method is the sequential
composition of the blocks above — METAR base, TAF and PIREP severity deltas,
time-appropriate note, recategorisation, summary suffix. -/
def analyze_combined_weather_data (airport_data : AirportData) : CombinedAnalysis :=
  let (a1, original_category) := combinedBase airport_data
  combinedSummary
    (combinedRecategorize
      (combinedWithTime
        (combinedWithPirep (combinedWithTaf a1 airport_data.taf) airport_data.pirep)
        airport_data.has_time_conditions airport_data.primary_source)
      airport_data.metar original_category)

end WeatherAnalyzer

/-! ## `app.py` (PIREP dataclass, raw decoding, and summary generation) -/

namespace AppMain

/-- The `PIREP` dataclass.  `type` is named `ptype`; `temp_c` is declared
`float` in the source but `parse_raw`'s `TA_RE` capture `[-+]?\d+` only ever
produces integral values, so it is carried as an `Int`. -/
structure PIREP where
  raw : String
  ptype : Option String := none
  obs_time : Option String := none
  receipt_time : Option String := none
  lat : Option ℚ := none
  lon : Option ℚ := none
  altitude_ft_msl : Option Int := none
  station : Option String := none
  turbulence : Option String := none
  icing : Option String := none
  sky : Option String := none
  temp_c : Option Int := none
  aircraft : Option String := none
  remarks : Option String := none
deriving DecidableEq

/-- `INTENSITY_MAP`. -/
def INTENSITY_MAP : List (String × String) :=
  [("LGT", "Light"), ("MOD", "Moderate"), ("SEV", "Severe"), ("SVR", "Severe"),
   ("EXTM", "Extreme"), ("LGT-MOD", "Light to Moderate"),
   ("MOD-SEV", "Moderate to Severe"), ("NEG", "None"), ("OCNL", "Occasional"),
   ("CONS", "Continuous")]

/-- `AIRPORT_LOOKUP`. -/
def AIRPORT_LOOKUP : List (String × String) :=
  [("KJFK", "John F. Kennedy International Airport, New York"),
   ("KLAX", "Los Angeles International Airport"),
   ("KBOS", "Boston Logan International Airport"),
   ("KSEA", "Seattle-Tacoma International Airport"),
   ("KSFO", "San Francisco International Airport"),
   ("KORD", "Chicago O'Hare International Airport"),
   ("KDEN", "Denver International Airport"),
   ("KATL", "Hartsfield-Jackson Atlanta International Airport"),
   ("KDFW", "Dallas/Fort Worth International Airport"),
   ("KLAS", "McCarran International Airport, Las Vegas"),
   ("KMIA", "Miami International Airport"),
   ("KPHX", "Phoenix Sky Harbor International Airport"),
   ("VABB", "Chhatrapati Shivaji Maharaj International Airport, Mumbai"),
   ("VOBG", "Belgaum Airport"),
   ("VIDP", "Indira Gandhi International Airport, Delhi"),
   ("VOBL", "Kempegowda International Airport, Bangalore")]

/-- `severity_icon` (the icon literals are copied byte-for-byte from the
source, which stores them in a mangled encoding). -/
def severity_icon (level : String) : String :=
  if level = "" then ""
  else if strContains level "Light" then "âœ…"
  else if strContains level "Moderate" then "âš ï¸"
  else if strContains level "Severe" || strContains level "Extreme" then
    "ðŸ”´"
  else ""

/-- Anchored matcher for `/XX\s*(cap)` — marker, zero or more whitespace,
then the capture (the `app.py` regexes use `\s*`, unlike the NLP ones). -/
def markerWs0 (marker : String) (cap : List Char → Option (List Char × List Char))
    (l : List Char) : Option String :=
  if strPrefix marker l then
    (cap ((l.drop marker.length).dropWhile isPySpace)).map (fun p => String.mk p.1)
  else none

/-- Anchored matcher for `TA_RE = /TA\s*([-+]?\d+)`, returning the integer. -/
def taMatcher (l : List Char) : Option Int :=
  if strPrefix "/TA" l then
    let r := (l.drop 3).dropWhile isPySpace
    let (sign, r1) : Int × List Char :=
      match r with
      | '-' :: t => (-1, t)
      | '+' :: t => (1, t)
      | t => (1, t)
    match takeWhile1 Char.isDigit r1 with
    | some (ds, _) => some (sign * digitsToInt ds)
    | none => none
  else none

/-- Anchored matcher for `FL_RE = /FL(\d+)`. -/
def flMatcher (l : List Char) : Option Int :=
  if strPrefix "/FL" l then
    match takeWhile1 Char.isDigit (l.drop 3) with
    | some (ds, _) => some (digitsToInt ds)
    | none => none
  else none

/-- `parse_raw`: apply each slash-marker regex search in source order,
overwriting the corresponding field of `base` (or of a fresh record) on a
hit.  Searches run over the raw text as-is (no uppercasing, unlike the NLP
extractor). -/
def parse_raw (raw : String) (base : Option PIREP) : PIREP :=
  let p0 := base.getD { raw := raw }
  let l := raw.data
  let isTPChar : Char → Bool := fun c => ('A' ≤ c && c ≤ 'Z') || Char.isDigit c
  let notSlash : Char → Bool := fun c => c ≠ '/'
  let p1 :=
    match searchPos flMatcher l with
    | some n => { p0 with altitude_ft_msl := some (n * 100) }
    | none => p0
  let p2 :=
    match searchPos (markerWs0 "/TB" (takeWhile1 notSlash)) l with
    | some v =>
      let tb_val := pyStrip v
      { p1 with turbulence := some ((INTENSITY_MAP.lookup tb_val).getD tb_val) }
    | none => p1
  let p3 :=
    match searchPos (markerWs0 "/IC" (takeWhile1 notSlash)) l with
    | some v =>
      let ic_val := pyStrip v
      { p2 with icing := some ((INTENSITY_MAP.lookup ic_val).getD ic_val) }
    | none => p2
  let p4 :=
    match searchPos (markerWs0 "/SK" (takeWhile1 notSlash)) l with
    | some v => { p3 with sky := some (pyStrip v) }
    | none => p3
  let p5 :=
    match searchPos taMatcher l with
    | some n => { p4 with temp_c := some n }
    | none => p4
  let p6 :=
    match searchPos (markerWs0 "/TP" (takeWhile1 isTPChar)) l with
    | some v => { p5 with aircraft := some v }
    | none => p5
  let p7 :=
    match searchPos (markerWs0 "/RM" (takeWhile1 notSlash)) l with
    | some v => { p6 with remarks := some (pyStrip v) }
    | none => p6
  p7

/-- One match of `CLOUD_RE = (FEW|SCT|BKN|OVC)(\d{2,3})?(CB|TCU)?`. -/
structure CloudMatch where
  layer : String
  hgt : Option String
  conv : Option String
deriving DecidableEq

/-- Anchored match of `CLOUD_RE` with its captures and the rest of the
input (digits greedy: 3 then 2 then none; convective suffix `CB` before
`TCU`). -/
def cloudMatchAt (l : List Char) : Option (CloudMatch × List Char) :=
  match ["FEW", "SCT", "BKN", "OVC"].find? (fun p => strPrefix p l) with
  | none => none
  | some layer =>
    let r0 := l.drop layer.length
    let (hgt, r1) : Option String × List Char :=
      match takeCount 3 Char.isDigit r0 with
      | some (ds, r) => (some (String.mk ds), r)
      | none =>
        match takeCount 2 Char.isDigit r0 with
        | some (ds, r) => (some (String.mk ds), r)
        | none => (none, r0)
    let (conv, r2) : Option String × List Char :=
      if strPrefix "CB" r1 then (some "CB", r1.drop 2)
      else if strPrefix "TCU" r1 then (some "TCU", r1.drop 3)
      else (none, r1)
    some ({ layer := layer, hgt := hgt, conv := conv }, r2)

/-- `re.finditer` over `CLOUD_RE`: leftmost, non-overlapping, resuming after
each match (fuel = input length; every match consumes at least one
character). -/
def cloudFinditer : Nat → List Char → List CloudMatch
  | 0, _ => []
  | _, [] => []
  | fuel + 1, l@(_ :: rest) =>
    match cloudMatchAt l with
    | some (m, r) => m :: cloudFinditer fuel r
    | none => cloudFinditer fuel rest

/-- `CLOUD_WORD`. -/
def CLOUD_WORD : List (String × String) :=
  [("FEW", "few"), ("SCT", "scattered"), ("BKN", "broken"), ("OVC", "overcast")]

/-- `CLOUD_TYPE`. -/
def CLOUD_TYPE : List (String × String) :=
  [("CB", "cumulonimbus"), ("TCU", "towering cumulus")]

/-- `_format_clouds`: `CLR`/`SKC` anywhere short-circuits to clear skies;
otherwise each regex match renders a phrase (the `int(hgt)` conversion cannot
fail on a digits-only capture, so the `except` fallback is unreachable);
no match falls back to the lowercased sky text. -/
def format_clouds (sky : String) : Option String :=
  if sky = "" then none
  else
    let up := toUpperStr sky
    if strContains up "CLR" || strContains up "SKC" then some "clear skies"
    else
      let phrases := (cloudFinditer up.data.length up.data).map (fun m =>
        let layer_word := (CLOUD_WORD.lookup m.layer).getD (toLowerStr m.layer)
        let add :=
          match m.conv with
          | some cv => " " ++ ((CLOUD_TYPE.lookup cv).getD (toLowerStr cv))
          | none => ""
        match m.hgt with
        | some h => layer_word ++ add ++ " at " ++ toString (digitsToInt h.data * 100) ++ " ft"
        | none => layer_word ++ add)
      if phrases ≠ [] then some (joinSep ", " phrases)
      else some (toLowerStr sky)

end AppMain

namespace AppMain

/-- Days from 1970-01-01 to the given civil date (the standard era-based
conversion; used to model `datetime` arithmetic). -/
def daysFromCivil (y m d : Int) : Int :=
  let y1 := if m ≤ 2 then y - 1 else y
  let era := (if y1 ≥ 0 then y1 else y1 - 399).fdiv 400
  let yoe := y1 - era * 400
  let mp := if m > 2 then m - 3 else m + 9
  let doy := (153 * mp + 2).fdiv 5 + d - 1
  let doe := yoe * 365 + yoe.fdiv 4 - yoe.fdiv 100 + doy
  era * 146097 + doe - 719468

/-- Length of a month (leap years per the Gregorian rule). -/
def daysInMonth (y m : Int) : Int :=
  if m = 2 then
    if y % 4 = 0 ∧ (y % 100 ≠ 0 ∨ y % 400 = 0) then 29 else 28
  else if m = 4 ∨ m = 6 ∨ m = 9 ∨ m = 11 then 30
  else 31

/-- Offset-suffix parse for `isoToEpoch`: empty input is no offset, a full
`±HH:MM` consuming the whole rest is an offset in seconds, anything else is
malformed. -/
def isoOffset : List Char → Option Int
  | [] => some 0
  | sign :: rs =>
    if sign = '+' ∨ sign = '-' then
      match takeCount 2 Char.isDigit rs with
      | some (ohs, ':' :: ru) =>
        match takeCount 2 Char.isDigit ru with
        | some (oms, []) =>
          let off := digitsToInt ohs * 3600 + digitsToInt oms * 60
          some (if sign = '+' then off else -off)
        | _ => none
      | _ => none
    else none

/-- Seconds-and-fraction suffix for `isoToEpoch`: `[:SS[.f+]]` followed by
the (unconsumed) offset text. -/
def isoSeconds : List Char → Option (Int × List Char)
  | ':' :: rb =>
    (match takeCount 2 Char.isDigit rb with
     | some (ss, rc) =>
       let sec := digitsToInt ss
       if sec > 59 then none
       else
         match rc with
         | '.' :: rd => (takeWhile1 Char.isDigit rd).map (fun p => (sec, p.2))
         | _ => some (sec, rc)
     | none => none)
  | ra => some (0, ra)

/-- Time-of-day suffix for `isoToEpoch`: `HH:MM[:SS[.f+]][±HH:MM]`, returning
seconds since midnight adjusted by the offset. -/
def isoTime (r : List Char) : Option Int :=
  match takeCount 2 Char.isDigit r with
  | some (hs, ':' :: r8) =>
    let h := digitsToInt hs
    if h > 23 then none
    else
      match takeCount 2 Char.isDigit r8 with
      | some (mis, r9) =>
        let mi := digitsToInt mis
        if mi > 59 then none
        else
          match isoSeconds r9 with
          | some (sec, rOff) =>
            (isoOffset rOff).map (fun off => h * 3600 + mi * 60 + sec - off)
          | none => none
      | none => none
  | _ => none

/-- Model of `datetime.fromisoformat(...)` restricted to the forms the system
receives: `YYYY-MM-DD`, optionally followed by any single separator and
`HH:MM[:SS[.f+]]`, optionally followed by a `±HH:MM` offset.  Returns epoch
seconds (fractions truncated), `none` on anything malformed — the source
turns a raised `ValueError` into the fallback phrase, so `none` stands for
the exception. -/
def isoToEpoch (s : String) : Option Int :=
  match takeCount 4 Char.isDigit s.data with
  | some (ys, '-' :: r2) =>
    match takeCount 2 Char.isDigit r2 with
    | some (ms, '-' :: r4) =>
      match takeCount 2 Char.isDigit r4 with
      | some (ds, r5) =>
        let y := digitsToInt ys
        let mo := digitsToInt ms
        let d := digitsToInt ds
        if mo < 1 ∨ mo > 12 ∨ d < 1 ∨ d > daysInMonth y mo then none
        else
          let base := daysFromCivil y mo d * 86400
          match r5 with
          | [] => some base
          | _ :: r6 => (isoTime r6).map (fun t => base + t)
      | none => none
    | _ => none
  | _ => none

/-- `relative_time`, with the wall clock passed explicitly as epoch seconds
(the source reads `datetime.now(timezone.utc)`).  Digit-only strings are epoch
timestamps; otherwise ISO parsing (after replacing `Z`) with the
`reported at ...` fallback; then the minutes-based phrasing with floor
division, exactly as in the source. -/
def relative_time (timestr : Option String) (nowEpoch : Int) : String :=
  match timestr with
  | none => "time unknown"
  | some ts =>
    if ts = "" then "time unknown"
    else
      let tOpt : Option Int :=
        if ts.data.all Char.isDigit then some (digitsToInt ts.data)
        else isoToEpoch (replaceStr ts "Z" "+00:00")
      match tOpt with
      | none => "reported at " ++ ts
      | some t =>
        let mins := (nowEpoch - t).fdiv 60
        if mins < 1 then "observed just now"
        else if mins < 60 then "observed " ++ toString mins ++ " minutes ago"
        else "observed " ++ toString (mins.fdiv 60) ++ "h " ++
             toString (mins.emod 60) ++ "m ago"

/-- Python truthiness filter on an optional string (`p.field or ...`,
`if p.field:`): `None` and `""` are falsy. -/
def optTruthy : Option String → Option String
  | some s => if s = "" then none else some s
  | none => none

/-- `make_summary`, wall clock explicit (used only by the relative-time
clause).  The altitude clause tests Python truthiness of
`p.altitude_ft_msl`, so an altitude of `0` renders `altitude not given`
exactly like an absent one; the `f"{p.temp_c:.0f}"` formatting of the
integral `temp_c` renders the bare integer. -/
def make_summary (p : PIREP) (nowEpoch : Int) : String :=
  let parts : List String :=
    (match optTruthy p.turbulence with
     | some t => [severity_icon t ++ " " ++ t ++ " turbulence reported"]
     | none => []) ++
    (match optTruthy p.icing with
     | some ic => [severity_icon ic ++ " " ++ ic ++ " icing observed"]
     | none => []) ++
    (match format_clouds (p.sky.getD "") with
     | some c => if c ≠ "" then [c] else []
     | none => []) ++
    (match p.temp_c with
     | some n => ["temperature " ++ toString n ++ " degrees Celsius"]
     | none => []) ++
    (match optTruthy p.aircraft with
     | some a => ["aircraft type " ++ a]
     | none => []) ++
    (match optTruthy p.remarks with
     | some r => ["remarks " ++ r]
     | none => [])
  let alt :=
    match p.altitude_ft_msl with
    | some n => if n ≠ 0 then toString n ++ " ft" else "altitude not given"
    | none => "altitude not given"
  let loc :=
    match p.station with
    | some st =>
      if st ≠ "" then (AIRPORT_LOOKUP.lookup st).getD ("near " ++ st)
      else "location unknown"
    | none => "location unknown"
  let time_info :=
    relative_time (match optTruthy p.obs_time with
                   | some s => some s
                   | none => p.receipt_time) nowEpoch
  joinSep " | " (parts ++ [alt, loc, time_info])

end AppMain

/-! ## Claim theorems -/

/-- **C3** (spec-side definition): the Classifier's category derivation as the
claim words it — ordered clauses, first match wins: a `VFR` tag with score ≤ 1
is FAVORABLE; an `MVFR` tag, or a `VFR` tag with score > 1, is MARGINAL; an
`IFR`/`LIFR` tag, or a score ≥ 4, is ADVERSE; every other combination
defaults to MARGINAL, using the code's `CLEAR`/`SIGNIFICANT`/`SEVERE` names
for FAVORABLE/MARGINAL/ADVERSE. -/
def determine_category_spec (tag : String) (score : Int) : String :=
  if tag = "VFR" ∧ score ≤ 1 then "CLEAR"
  else if tag = "MVFR" ∨ (tag = "VFR" ∧ score > 1) then "SIGNIFICANT"
  else if (tag = "IFR" ∨ tag = "LIFR") ∨ score ≥ 4 then "SEVERE"
  else "SIGNIFICANT"

/-- **C3**: for every flight-category tag and every total severity score, the
code's `_determine_category` agrees with the claim's category derivation
(VFR tag with score ≤ 1 → FAVORABLE; MVFR tag or VFR with score > 1 →
MARGINAL; IFR/LIFR tag or score ≥ 4 → ADVERSE; otherwise MARGINAL). -/
theorem determine_category_matches_spec (tag : String) (score : Int) :
    WeatherAnalyzer.determine_category score { flight_category := tag } =
      determine_category_spec tag score := rfl

/-- **C4** (counter-evidence for the code): the ceiling derivation of
`_parse_metar` returns the base of the *first* `BKN`/`OVC` layer in list
order, not the minimum: on layers `BKN 1500 ft, OVC 800 ft` it yields 1500,
while on the reordered list it yields 800 — the source's own comment says
"Find lowest BKN or OVC layer". -/
theorem service_ceiling_takes_first_not_lowest :
    WeatherService.serviceCeiling none
        [{ cover := some "BKN", base := some 1500 },
         { cover := some "OVC", base := some 800 }] = some 1500 ∧
    WeatherService.serviceCeiling none
        [{ cover := some "OVC", base := some 800 },
         { cover := some "BKN", base := some 1500 }] = some 800 ∧
    (1500 : Int) ≠ 800 := by
  refine ⟨rfl, rfl, by decide⟩

/-- **C5** (counterexample): the decoded visibility for the `"10+"` encoding
is *not* distinguishable from an exact reading of 10 — `_parse_metar` maps
both the upstream string `"10+"` and the upstream number `10` to the same
value `10.0`. -/
theorem visib_ten_plus_equals_exact_ten :
    WeatherService.parseVisibField (some (WeatherService.VisibJson.jstr "10+")) =
      WeatherService.parseVisibField (some (WeatherService.VisibJson.jnum 10)) := rfl

/-- **C5** (amended): the `"10+"` visibility encoding decodes to the plain
numeric value `10.0` (no sentinel), and the string-level METAR decoder does
not recognise a `10+SM` token at all, leaving its visibility field absent. -/
theorem visib_ten_plus_decodes_plain_ten :
    WeatherService.parseVisibField (some (WeatherService.VisibJson.jstr "10+")) =
      some (WeatherService.VisibJson.jnum 10) ∧
    (AviationWeatherParser.extract_metar_components "KJFK 121851Z 10+SM").visibility
      = "" := by
  refine ⟨rfl, rfl⟩

/-- **C6** (counterexample): decoding a surface observation with the
calm-wind token `00000KT` stores the *numeric* degree value `0` in the wind's
direction, not the value `"calm"`. -/
theorem calm_wind_direction_is_numeric_zero :
    (AviationWeatherParser.extract_metar_components
        "KXXX 010000Z 00000KT 10SM 15/10 A3000").wind.direction =
      some (AviationWeatherParser.WDir.deg 0) ∧
    (AviationWeatherParser.extract_metar_components
        "KXXX 010000Z 00000KT 10SM 15/10 A3000").wind.direction ≠
      some (AviationWeatherParser.WDir.txt "calm") := by
  refine ⟨rfl, by decide⟩

/-- **C6** (amended): for the calm-wind token `00000KT` the decoded wind has
speed 0 and is rendered as the description `"calm winds"`, but its direction
field holds the numeric value 0 rather than `"calm"`; the same wind dict
results from decoding a full observation string containing the token. -/
theorem calm_wind_decode :
    AviationWeatherParser.parse_wind "00000KT" =
      { direction := some (AviationWeatherParser.WDir.deg 0), speed := some 0,
        gust := none, description := some "calm winds", variableDir := none } ∧
    (AviationWeatherParser.extract_metar_components
        "KXXX 010000Z 00000KT 10SM 15/10 A3000").wind =
      { direction := some (AviationWeatherParser.WDir.deg 0), speed := some 0,
        gust := none, description := some "calm winds", variableDir := none } := by
  refine ⟨rfl, rfl⟩

/-- **C8**: for every report kind, decoding an empty raw string returns the
fallback structure — all fields absent (the literal empty components dict)
and the fixed no-information message — without raising; the PIREP result is
the same at every wall-clock instant. -/
theorem empty_raw_decodes_to_fallback (now : Int) :
    AviationWeatherParser.parse_metar "" =
      { raw := "", simplified := "No METAR data available", components := none } ∧
    AviationWeatherParser.parse_taf "" =
      { raw := "", simplified := "No TAF data available", components := none } ∧
    AviationWeatherParser.parse_pirep "" now =
      { raw := "", simplified := "No PIREP data available", components := none,
        severity := { level := 0, description := "none", color := "secondary" },
        age_hours := 0 } :=
  ⟨rfl, rfl, rfl⟩

/-- **C1** (the code, run at the failing input): a surface observation with
visibility 0.5 SM alone classifies ADVERSE (`SEVERE`, score 4), yet the
Multi-Source Combiner — given that observation and no forecast or
pilot-report input at all — returns `SIGNIFICANT`: the `elif severity >= 3`
branch fires before the `elif original == 'SEVERE'` clamp, downgrading the
surface category. -/
theorem combiner_downgrades_surface_severe :
    (WeatherAnalyzer.analyze_metar { visibility := some (mkRat 1 2) }).category = "SEVERE" ∧
    (WeatherAnalyzer.analyze_metar { visibility := some (mkRat 1 2) }).severity_score = 4 ∧
    (WeatherAnalyzer.analyze_combined_weather_data
        { metar := some { visibility := some (mkRat 1 2) } }).category = "SIGNIFICANT" :=
  ⟨rfl, rfl, rfl⟩

/-- **C2** (counterexample): classifying the fields decoded from
`KJFK 121851Z 18012G20KT 3SM -RA BKN008 OVC015 22/19 A2992` (visibility 3,
ceiling 800, wind 12 gusting 20, light rain, no flight-category tag) yields
category `SEVERE` — not `SIGNIFICANT` (MARGINAL) as the claim states, because
the total score 4 triggers the `score ≥ 4 → SEVERE` rule. -/
theorem metar_scenario_not_marginal :
    (WeatherAnalyzer.analyze_metar
        { visibility := some 3, ceiling := some 800, wind_speed := some 12,
          wind_gust := some 20, weather_conditions := "-RA" }).category = "SEVERE" ∧
    "SEVERE" ≠ "SIGNIFICANT" :=
  ⟨rfl, by decide⟩

/-- **C2** (amended): the raw observation decodes to station `KJFK`, wind
180° at 12 kt gusting 20 kt, visibility "3 statute miles", the phenomenon
"light rain", cloud layers `BKN` 800 ft and `OVC` 1500 ft whose derived
ceiling is 800 ft, temperature 22 °C, dewpoint 19 °C, altimeter 29.92; and
classifying those fields gives total severity score 4 (visibility 0,
ceiling +2, wind +1, light precipitation +1) and category ADVERSE
(`SEVERE`), by the score ≥ 4 rule. -/
theorem metar_scenario_decode_and_classify :
    (AviationWeatherParser.extract_metar_components
        "KJFK 121851Z 18012G20KT 3SM -RA BKN008 OVC015 22/19 A2992") =
      { station := "KJFK", time := "12th at 18:51Z",
        wind := { direction := some (AviationWeatherParser.WDir.deg 180),
                  speed := some 12, gust := some 20,
                  description :=
                    some "winds from south at 12 knots gusting to 20 knots" },
        visibility := "3 statute miles",
        weather := [{ code := "RA", intensity := "light", descriptor := "",
                      phenomena := ["rain"], description := "light rain" }],
        clouds := [{ coverage := "BKN", height := some 800,
                     description := "broken clouds at 800 feet" },
                   { coverage := "OVC", height := some 1500,
                     description := "overcast at 1500 feet" }],
        temperature := "22", dewpoint := "19", altimeter := "29.92" } ∧
    WeatherService.serviceCeiling none
        ((AviationWeatherParser.extract_metar_components
            "KJFK 121851Z 18012G20KT 3SM -RA BKN008 OVC015 22/19 A2992").clouds.map
          (fun l => { cover := some l.coverage, base := l.height })) = some 800 ∧
    (WeatherAnalyzer.analyze_metar
        { visibility := some 3, ceiling := some 800, wind_speed := some 12,
          wind_gust := some 20, weather_conditions := "-RA" }).severity_score = 4 ∧
    (WeatherAnalyzer.analyze_metar
        { visibility := some 3, ceiling := some 800, wind_speed := some 12,
          wind_gust := some 20, weather_conditions := "-RA" }).category = "SEVERE" :=
  ⟨rfl, rfl, rfl, rfl⟩

/-- **C9** (counterexample): the `age_hours` field of the pilot-report decode
result *does* depend on the wall-clock time: decoding the same raw report
(`/TM 0100`) at two different instants (02:00 and 03:00 on the same day)
yields ages 1 h and 2 h. -/
theorem pirep_age_depends_on_clock :
    (AviationWeatherParser.parse_pirep "UA /OV KJFK /TM 0100 /TB MOD" 120).age_hours ≠
    (AviationWeatherParser.parse_pirep "UA /OV KJFK /TM 0100 /TB MOD" 180).age_hours := by
  decide

/-- **C9** (amended): every field of the pilot-report decode result other
than `age_hours` is independent of the wall-clock instant: two runs on the
same raw text at any two instants agree on `raw`, `simplified`, `components`
and `severity` (only `age_hours` — and the presentation layer's
relative-time phrase — reads the clock). -/
theorem pirep_decode_clock_independent_except_age
    (raw : String) (now1 now2 : Int) :
    (AviationWeatherParser.parse_pirep raw now1).raw =
      (AviationWeatherParser.parse_pirep raw now2).raw ∧
    (AviationWeatherParser.parse_pirep raw now1).simplified =
      (AviationWeatherParser.parse_pirep raw now2).simplified ∧
    (AviationWeatherParser.parse_pirep raw now1).components =
      (AviationWeatherParser.parse_pirep raw now2).components ∧
    (AviationWeatherParser.parse_pirep raw now1).severity =
      (AviationWeatherParser.parse_pirep raw now2).severity := by
  unfold AviationWeatherParser.parse_pirep
  split <;> exact ⟨rfl, rfl, rfl, rfl⟩

/-- **C10**: for every decoded pilot report whose altitude is exactly 0 feet,
the generated summary is identical to the summary of the same report with no
altitude at all — the truthiness test `if p.altitude_ft_msl` renders the
trailing clause `altitude not given` for both. -/
theorem zero_altitude_renders_like_absent (p : AppMain.PIREP) (now : Int)
    (h : p.altitude_ft_msl = some 0) :
    AppMain.make_summary p now =
      AppMain.make_summary { p with altitude_ft_msl := none } now := by
  unfold AppMain.make_summary
  rw [h]
  rfl

/-- **C10** (witness): the raw token `/FL000` decodes to altitude 0, its
summary equals the no-altitude summary, and that summary renders the
mandatory trailing clauses as `altitude not given | location unknown |
time unknown`. -/
theorem zero_altitude_renders_like_absent_witness :
    (AppMain.parse_raw "/FL000" none).altitude_ft_msl = some 0 ∧
    AppMain.make_summary (AppMain.parse_raw "/FL000" none) 0 =
      AppMain.make_summary
        { AppMain.parse_raw "/FL000" none with altitude_ft_msl := none } 0 ∧
    AppMain.make_summary (AppMain.parse_raw "/FL000" none) 0 =
      "altitude not given | location unknown | time unknown" :=
  ⟨rfl, zero_altitude_renders_like_absent (AppMain.parse_raw "/FL000" none) 0 rfl, rfl⟩

/-! ## Score-bound lemmas (shared helpers for the severity claims) -/

/-- Each visibility factor score is non-negative (0, 2 or 4). -/
lemma analyze_visibility_score_nonneg (v : ℚ) :
    0 ≤ (WeatherAnalyzer.analyze_visibility v).score := by
  unfold WeatherAnalyzer.analyze_visibility
  split_ifs <;> norm_num

/-- Each ceiling factor score is non-negative (0, 2 or 4). -/
lemma analyze_ceiling_score_nonneg (c : Int) :
    0 ≤ (WeatherAnalyzer.analyze_ceiling c).score := by
  unfold WeatherAnalyzer.analyze_ceiling
  split_ifs <;> norm_num

/-- Each wind factor score is non-negative (0, 1, 3 or 5). -/
lemma analyze_winds_score_nonneg (ws : Int) (g : Option Int) :
    0 ≤ (WeatherAnalyzer.analyze_winds ws g).score := by
  unfold WeatherAnalyzer.analyze_winds
  split <;> simp only [] <;> split_ifs <;> norm_num

/-- The present-weather score is non-negative (a sum of non-negative
blocks). -/
lemma analyze_weather_conditions_score_nonneg (w : String) :
    0 ≤ (WeatherAnalyzer.analyze_weather_conditions w).score := by
  unfold WeatherAnalyzer.analyze_weather_conditions
  simp only []
  split_ifs <;> norm_num

/-- The per-observation severity score of `analyze_metar` is non-negative:
it is a sum of the non-negative factor scores. -/
lemma analyze_metar_score_nonneg (m : WeatherAnalyzer.MetarData) :
    0 ≤ (WeatherAnalyzer.analyze_metar m).severity_score := by
  unfold WeatherAnalyzer.analyze_metar
  simp only []
  rcases m.visibility with _ | v <;> rcases m.ceiling with _ | c <;>
    rcases m.wind_speed with _ | ws <;> split_ifs
  all_goals
    have hW := analyze_weather_conditions_score_nonneg m.weather_conditions
    try generalize hG :
      (WeatherAnalyzer.analyze_weather_conditions m.weather_conditions).score = W at hW ⊢
    repeat
      first
      | apply add_nonneg
      | exact analyze_visibility_score_nonneg _
      | exact analyze_ceiling_score_nonneg _
      | exact analyze_winds_score_nonneg _ _
      | exact hW
      | exact le_refl _

/-- The base of the combined analysis (METAR block) has a non-negative
score. -/
lemma combinedBase_score_nonneg (d : WeatherAnalyzer.AirportData) :
    0 ≤ (WeatherAnalyzer.combinedBase d).1.severity_score := by
  unfold WeatherAnalyzer.combinedBase
  rcases d.metar with _ | m
  · norm_num
  · exact analyze_metar_score_nonneg m

/-- The TAF block never lowers the severity score (it adds 0, 1 or 2). -/
lemma combinedWithTaf_score_ge (a : WeatherAnalyzer.CombinedAnalysis)
    (taf : Option WeatherAnalyzer.TafData) :
    a.severity_score ≤ (WeatherAnalyzer.combinedWithTaf a taf).severity_score := by
  unfold WeatherAnalyzer.combinedWithTaf
  rcases taf with _ | t
  · exact le_refl _
  · dsimp only
    split_ifs <;> dsimp only <;> linarith

/-- The PIREP block lowers the severity score by at most 1 (it adds 2, −1 or
0). -/
lemma combinedWithPirep_score_ge (a : WeatherAnalyzer.CombinedAnalysis)
    (ps : List WeatherAnalyzer.PirepData) :
    a.severity_score - 1 ≤ (WeatherAnalyzer.combinedWithPirep a ps).severity_score := by
  unfold WeatherAnalyzer.combinedWithPirep
  split_ifs with h
  · dsimp only
    split_ifs <;> dsimp only <;> linarith
  · linarith

/-- The time-appropriate block does not change the severity score. -/
lemma combinedWithTime_score_eq (a : WeatherAnalyzer.CombinedAnalysis)
    (h : Bool) (p : String) :
    (WeatherAnalyzer.combinedWithTime a h p).severity_score = a.severity_score := by
  unfold WeatherAnalyzer.combinedWithTime
  split_ifs <;> rfl

/-- The recategorisation block does not change the severity score. -/
lemma combinedRecategorize_score_eq (a : WeatherAnalyzer.CombinedAnalysis)
    (m : Option WeatherAnalyzer.MetarData) (o : String) :
    (WeatherAnalyzer.combinedRecategorize a m o).severity_score = a.severity_score := by
  unfold WeatherAnalyzer.combinedRecategorize
  rcases m with _ | m <;> split_ifs <;> rfl

/-- The summary suffix does not change the severity score. -/
lemma combinedSummary_score_eq (a : WeatherAnalyzer.CombinedAnalysis) :
    (WeatherAnalyzer.combinedSummary a).severity_score = a.severity_score := rfl

/-- **C7** (counterexample): a location with no surface observation and one
"smooth"-language pilot report gets combined severity score −1, which is
negative — the smooth-pirep −1 adjustment has no floor. -/
theorem combined_score_negative_on_smooth_pirep :
    (WeatherAnalyzer.analyze_combined_weather_data
        { pirep := [{ raw_text := "SMOOTH" }] }).severity_score = -1 ∧
    ¬ (0 ≤ (WeatherAnalyzer.analyze_combined_weather_data
        { pirep := [{ raw_text := "SMOOTH" }] }).severity_score) :=
  ⟨rfl, by decide⟩

/-- **C7** (amended): every per-observation classification carries a
non-negative severity score, and the multi-source combined score is bounded
below by −1 — the forecast block only adds, and the pilot-report block
subtracts at most 1 (with no surface observation and only smooth-language
pilot reports the bound −1 is attained, per the counterexample). -/
theorem severity_scores_bounded_below (m : WeatherAnalyzer.MetarData)
    (d : WeatherAnalyzer.AirportData) :
    0 ≤ (WeatherAnalyzer.analyze_metar m).severity_score ∧
    -1 ≤ (WeatherAnalyzer.analyze_combined_weather_data d).severity_score := by
  refine ⟨analyze_metar_score_nonneg m, ?_⟩
  unfold WeatherAnalyzer.analyze_combined_weather_data
  have h0 := combinedBase_score_nonneg d
  have h1 := combinedWithTaf_score_ge (WeatherAnalyzer.combinedBase d).1 d.taf
  have h2 := combinedWithPirep_score_ge
    (WeatherAnalyzer.combinedWithTaf (WeatherAnalyzer.combinedBase d).1 d.taf) d.pirep
  rw [combinedSummary_score_eq, combinedRecategorize_score_eq, combinedWithTime_score_eq]
  linarith
